import Mathlib

/-!
# Package `logger` (src/logger.go)

A shallow embedding of the logging package and the properties of its
exported operations.

* Go strings are modelled by `String`; the functions of package `strings`
  the source calls are defined on the character lists.
* A Go `interface{}` operand is a `Value`.
* Package `fmt` is an argument of every function that calls it (`Fmt`), so
  that what is proved for all `F : Fmt` holds whatever `fmt` does.  `goFmt`
  is a model of `fmt` for the plain verbs, used where a property depends on
  what `fmt` prints.
* `runtime.Caller` and `time.Now` are inputs (`Env`).
* Package-level variables, the `Logger` objects behind `*Logger` pointers
  and the writes made to `os.Stdout` form the `State`, passed explicitly.
-/

namespace logger

/-! ## Package `strings` -/

/-- Go `strings.HasPrefix(s, pre)`. -/
def HasPrefix (s pre : String) : Bool := pre.data.isPrefixOf s.data

/-- Go `strings.HasSuffix(s, suffix)`. -/
def HasSuffix (s suffix : String) : Bool := suffix.data.isSuffixOf s.data

/-- Whether `sub` occurs in the character list, at any position. -/
def containsChars (sub : List Char) : List Char → Bool
  | [] => sub.isEmpty
  | c :: cs => sub.isPrefixOf (c :: cs) || containsChars sub cs

/-- Go `strings.Contains(s, substr)`. -/
def Contains (s substr : String) : Bool := containsChars substr.data s.data

/-- Go `strings.Repeat(s, count)`. -/
def Repeat (s : String) : Nat → String
  | 0 => ""
  | n + 1 => s ++ Repeat s n

/-! ## Operands -/

/-- The dynamic values passed as `interface{}`: the nil interface, a `bool`,
an `int`, a `string`, and an error built by `errors.New(msg)`. -/
inductive Value where
  | nil
  | bool (b : Bool)
  | int (i : Int)
  | str (s : String)
  | error (msg : String)
  deriving DecidableEq

/-- The type assertion `x.(string)`: the string when the dynamic type is
`string`. -/
def asString : Value → Option String
  | .str s => some s
  | _ => none

/-! ## Package `fmt` -/

/-- The two functions of package `fmt` the source calls.  `Sprint` is only
ever called with one operand. -/
structure Fmt where
  Sprint : Value → String
  Sprintf : String → List Value → String

/-- What `reflect.TypeOf(arg).String()` gives. -/
def typeString : Value → String
  | .nil => "<nil>"
  | .bool _ => "bool"
  | .int _ => "int"
  | .str _ => "string"
  | .error _ => "*errors.errorString"

/-- The operand under verb v: booleans as true or false, integers in
decimal, strings as they are, an error by its `Error()` text. -/
def fmtV : Value → String
  | .nil => "<nil>"
  | .bool b => if b then "true" else "false"
  | .int i => toString i
  | .str s => s
  | .error msg => msg

/-- The text `fmt` prints for a verb the operand does not accept.  An error
of `errors.New` is a pointer to a struct with one string field, printed field
by field. -/
def badVerb (verb : Char) : Value → String
  | .nil => "%!" ++ String.singleton verb ++ "(<nil>)"
  | .error msg => "&\x7b%!" ++ String.singleton verb ++ "(string=" ++ msg ++ ")\x7d"
  | a => "%!" ++ String.singleton verb ++ "(" ++ typeString a ++ "=" ++ fmtV a ++ ")"

/-- One operand under one verb (`printArg`), for the verbs v, d, s, t and T.
Every other verb character is printed as a verb the operand does not accept;
that is what `fmt` does for the characters it does not define, while flags,
width, precision, argument indexes and the remaining verbs of `fmt` are
outside this model. -/
def printArg (arg : Value) (verb : Char) : String :=
  match arg with
  | .nil => if verb = 'T' ∨ verb = 'v' then "<nil>" else badVerb verb arg
  | .bool _ =>
    if verb = 'T' then typeString arg
    else if verb = 't' ∨ verb = 'v' then fmtV arg else badVerb verb arg
  | .int _ =>
    if verb = 'T' then typeString arg
    else if verb = 'v' ∨ verb = 'd' then fmtV arg else badVerb verb arg
  | .str _ =>
    if verb = 'T' then typeString arg
    else if verb = 'v' ∨ verb = 's' then fmtV arg else badVerb verb arg
  | .error _ =>
    if verb = 'T' then typeString arg
    else if verb = 'v' ∨ verb = 's' then fmtV arg else badVerb verb arg

/-- One operand in the list of operands left over. -/
def extraArg (arg : Value) : String :=
  if arg = Value.nil then "<nil>" else typeString arg ++ "=" ++ printArg arg 'v'

/-- The end of `doPrintf`: operands the format did not use are reported. -/
def extraArgs (a : List Value) : String :=
  if a.isEmpty then "" else "%!(EXTRA " ++ ", ".intercalate (a.map extraArg) ++ ")"

/-- The format loop of `fmt` (`doPrintf`): text is copied, a percent sign
takes the next character as its verb and, unless the verb is a percent sign,
the next operand. -/
def doPrintf : List Char → List Value → String
  | [], a => extraArgs a
  | c :: rest, a =>
    if c ≠ '%' then String.singleton c ++ doPrintf rest a
    else
      match rest with
      | [] => "%!(NOVERB)" ++ extraArgs a
      | verb :: rest2 =>
        if verb = '%' then "%" ++ doPrintf rest2 a
        else
          match a with
          | [] => "%!" ++ String.singleton verb ++ "(MISSING)" ++ doPrintf rest2 []
          | arg :: a2 => printArg arg verb ++ doPrintf rest2 a2

/-- Model of Go's `fmt.Sprintf`. -/
def goSprintf (format : String) (a : List Value) : String := doPrintf format.data a

/-- Model of Go's package `fmt`. -/
def goFmt : Fmt where
  Sprint := fun arg => printArg arg 'v'
  Sprintf := goSprintf

/-! ## The package: constants, state, environment -/

/-- Constants of `LogMode` (a `uint`): `Silent LogMode = iota + 1`. -/
def Silent : Nat := 1
/-- Second constant of `LogMode`. -/
def Normal : Nat := 2
/-- Third constant of `LogMode`. -/
def Warning : Nat := 3
/-- Fourth constant of `LogMode`. -/
def Debug : Nat := 4

/-- Constants of `logLevel`: the blank identifier takes `iota = 0`. -/
def lErr : Int := 1
/-- Second constant of `logLevel`. -/
def lWarn : Int := 2
/-- Third constant of `logLevel`. -/
def lDebug : Int := 3
/-- Fourth constant of `logLevel`. -/
def lInfo : Int := 4

/-- Constants of `ColorType`: the blank identifier takes `iota + 29 = 29`. -/
def ColorBlack : Int := 30
/-- Second constant of `ColorType`. -/
def ColorRed : Int := 31
/-- Third constant of `ColorType`. -/
def ColorGreen : Int := 32
/-- Fourth constant of `ColorType`. -/
def ColorYellow : Int := 33
/-- Fifth constant of `ColorType`. -/
def ColorBlue : Int := 34

/-- The struct `Logger`. -/
structure Logger where
  name : String
  sourceDir : String
  deriving DecidableEq

/-- The package-level variables `sourceDir`, `defaultLogMode` and
`defaultLogger` (a `*Logger`: an address in `heap`), the `Logger` objects
allocated so far, by address, and the buffers written to `os.Stdout`, oldest
first. -/
structure State where
  sourceDir : String
  defaultLogMode : Nat
  defaultLogger : Nat
  heap : List Logger
  stdout : List String

/-- The `Logger` a pointer refers to. -/
def State.deref (w : State) (p : Nat) : Option Logger := w.heap[p]?

/-- The assignment `p.name = name`. -/
def State.setName (w : State) (p : Nat) (name : String) : State :=
  match w.heap[p]? with
  | some l => { w with heap := w.heap.set p { l with name := name } }
  | none => w

/-- The assignment `p.sourceDir = dir`. -/
def State.setSourceDir (w : State) (p : Nat) (dir : String) : State :=
  match w.heap[p]? with
  | some l => { w with heap := w.heap.set p { l with sourceDir := dir } }
  | none => w

/-- One result of `runtime.Caller`, when `ok` is true. -/
structure Frame where
  file : String
  line : Int

/-- What the runtime gives one logging call: `Caller i` is the result of
`runtime.Caller(i)` inside `writeRuntimeMsg` (`none` when `ok` is false),
`now` is `time.Now().Format("2006-01-02 15:04:05")`. -/
structure Env where
  Caller : Nat → Option Frame
  now : String

/-- Function `SetMode`. -/
def SetMode (mode : Nat) (w : State) : State := { w with defaultLogMode := mode }

/-- Function `newLogger`: a new `Logger` with the package's `sourceDir`, and its
address. -/
def newLogger (w : State) : Nat × State :=
  (w.heap.length, { w with heap := w.heap ++ [{ name := "", sourceDir := w.sourceDir }] })

/-- Function `NewLogger`: the type assertion on `args[0]` is `asString`, and
`args[1:]` is `args.drop 1`. -/
def NewLogger (F : Fmt) (args : List Value) (w : State) : Nat × State :=
  let length := args.length
  if length = 1 then
    match args.head?.bind asString with
    | some name =>
      let (l, w1) := newLogger w
      (l, w1.setName l name)
    | none => newLogger w
  else if length > 1 then
    match args.head?.bind asString with
    | some format =>
      let (l, w1) := newLogger w
      (l, w1.setName l (F.Sprintf format (args.drop 1)))
    | none => newLogger w
  else newLogger w

/-- Function `NewLoggerWithSourceDir`; `Except.error` is the panic, with its value. -/
def NewLoggerWithSourceDir (F : Fmt) (sourceDir : String) (args : List Value) (w : State) :
    Except String (Nat × State) :=
  if sourceDir = "" then Except.error ""
  else
    let (l, w1) := NewLogger F args w
    Except.ok (l, w1.setSourceDir l sourceDir)

/-- The state once the package is initialised: the package-level variables
first (`sourceDir` has no initialiser and is still empty when
`defaultLogger = NewLogger()` is evaluated), then `init`, which stores in
`sourceDir` the text `dir` left of the path of logger.go once the matches of
its pattern are removed. -/
def initial (F : Fmt) (dir : String) : State :=
  let w0 : State :=
    { sourceDir := "", defaultLogMode := Normal, defaultLogger := 0, heap := [], stdout := [] }
  let (p, w1) := NewLogger F [] w0
  { w1 with defaultLogger := p, sourceDir := dir }

/-- The statements of `Format` after the type switch. -/
def formatTail (F : Fmt) (msg : String) (v : List Value) : String :=
  if v.length > 0 then F.Sprintf msg v else F.Sprint (Value.str msg)

/-- Function `Format`: the first branch is the case `string` of the type
switch, the second its default case. -/
def Format (F : Fmt) (f : Value) (v : List Value) : String :=
  match asString f with
  | some s =>
    let msg := s
    if v.length = 0 then msg
    else
      let msg := if !Contains msg "%" then msg ++ Repeat " %v" v.length else msg
      formatTail F msg v
  | none =>
    let msg := F.Sprint f
    if v.length = 0 then msg
    else
      let msg := msg ++ Repeat " %v" v.length
      formatTail F msg v

/-- The loop of `writeRuntimeMsg`, from depth `i`; the match on the frame is
the test of `ok`. -/
def writeRuntimeMsgFrom (F : Fmt) (env : Env) (l : Logger) (i : Nat) : String :=
  if i < 15 then
    match env.Caller i with
    | some fr =>
      if !HasPrefix fr.file l.sourceDir || HasSuffix fr.file "_test.go" then
        F.Sprintf "\x1b[%d;1m%s:%d\x1b[0m"
          [Value.int ColorBlack, Value.str fr.file, Value.int fr.line]
      else writeRuntimeMsgFrom F env l (i + 1)
    | none => writeRuntimeMsgFrom F env l (i + 1)
  else ""
termination_by 15 - i

/-- Method `Logger.writeRuntimeMsg`: the loop starts at depth 2. -/
def Logger.writeRuntimeMsg (F : Fmt) (env : Env) (l : Logger) : String :=
  writeRuntimeMsgFrom F env l 2

/-- Function `writeMsg`: the switch on the level, which leaves the message as
it is for a level that is none of the four. -/
def writeMsg (F : Fmt) (env : Env) (level : Int) (msg : String) : String :=
  let ts := env.now
  if level = lInfo then
    F.Sprintf "%s \x1b[%d;1m[日志]\x1b[0m %s" [Value.str ts, Value.int ColorBlue, Value.str msg]
  else if level = lDebug then
    F.Sprintf "%s \x1b[%d;1m[调试]\x1b[0m %s" [Value.str ts, Value.int ColorGreen, Value.str msg]
  else if level = lWarn then
    F.Sprintf "%s \x1b[%d;1m[警告]\x1b[0m %s" [Value.str ts, Value.int ColorYellow, Value.str msg]
  else if level = lErr then
    F.Sprintf "%s \x1b[%d;1m[错误]\x1b[0m %s" [Value.str ts, Value.int ColorRed, Value.str msg]
  else msg

/-- Method `Logger.Info`; `bys` is the buffer, written once at the end. -/
def Logger.Info (F : Fmt) (env : Env) (l : Logger) (f : Value) (v : List Value) (w : State) :
    State :=
  if w.defaultLogMode > Silent then
    let bys := ""
    let bys := if w.defaultLogMode > Normal then bys ++ l.writeRuntimeMsg F env ++ "\n" else bys
    let bys := if l.name ≠ "" then bys ++ F.Sprintf "Logger: %s >>>>>\n" [Value.str l.name] else bys
    let bys := bys ++ writeMsg F env lInfo (Format F f v)
    let bys := bys ++ "\n<<<<<\n"
    { w with stdout := w.stdout ++ [bys] }
  else w

/-- Method `Logger.Warn`. -/
def Logger.Warn (F : Fmt) (env : Env) (l : Logger) (f : Value) (v : List Value) (w : State) :
    State :=
  if w.defaultLogMode > Normal then
    let bys := ""
    let bys := if w.defaultLogMode > Warning then bys ++ l.writeRuntimeMsg F env ++ "\n" else bys
    let bys := if l.name ≠ "" then bys ++ F.Sprintf "Logger: %s >>>>>\n" [Value.str l.name] else bys
    let bys := bys ++ writeMsg F env lWarn (Format F f v)
    let bys := bys ++ "\n<<<<<\n"
    { w with stdout := w.stdout ++ [bys] }
  else w

/-- Method `Logger.Error`. -/
def Logger.Error (F : Fmt) (env : Env) (l : Logger) (f : Value) (v : List Value) (w : State) :
    State :=
  let bys := l.writeRuntimeMsg F env
  let bys := bys ++ "\n"
  let bys := if l.name ≠ "" then bys ++ F.Sprintf "Logger: %s >>>>>\n" [Value.str l.name] else bys
  let bys := bys ++ writeMsg F env lErr (Format F f v)
  let bys := bys ++ "\n<<<<<\n"
  { w with stdout := w.stdout ++ [bys] }

/-! ## Package-level functions -/

/-- The package-level `Info`: the method of `defaultLogger`; `none` is the
panic of dereferencing a pointer to no object. -/
def Info (F : Fmt) (env : Env) (f : Value) (v : List Value) (w : State) : Option State :=
  (w.deref w.defaultLogger).map fun l => l.Info F env f v w

/-- The package-level `Warn`. -/
def Warn (F : Fmt) (env : Env) (f : Value) (v : List Value) (w : State) : Option State :=
  (w.deref w.defaultLogger).map fun l => l.Warn F env f v w

/-- The package-level `Error`. -/
def Error (F : Fmt) (env : Env) (f : Value) (v : List Value) (w : State) : Option State :=
  (w.deref w.defaultLogger).map fun l => l.Error F env f v w

/-- Method `Logger.Level`. -/
def Logger.Level (_l : Logger) (w : State) : Nat := w.defaultLogMode

/-! ## Definitions used in the statements -/

/-- The operands one after the other, each in its default format (as `Sprint`
prints it) and each preceded by one space. -/
def spaced (F : Fmt) : List Value → String
  | [] => ""
  | x :: xs => " " ++ F.Sprint x ++ spaced F xs

/-- Whether the frame at depth `d` exists and its file does not start with
the logger's `sourceDir` or ends with "_test.go". -/
def qualifies (env : Env) (l : Logger) (d : Nat) : Bool :=
  match env.Caller d with
  | some fr => !HasPrefix fr.file l.sourceDir || HasSuffix fr.file "_test.go"
  | none => false

/-- The text of a frame: file, colon, line, in bold black. -/
def located (fr : Frame) : String :=
  "\x1b[30;1m" ++ fr.file ++ ":" ++ toString fr.line ++ "\x1b[0m"

/-- The part of a block after the location: the name line of a named
logger, the message line, the closing line. -/
def blockBody (F : Fmt) (env : Env) (l : Logger) (level : Int) (f : Value) (v : List Value) :
    String :=
  (if l.name ≠ "" then F.Sprintf "Logger: %s >>>>>\n" [Value.str l.name] else "")
    ++ writeMsg F env level (Format F f v) ++ "\n<<<<<\n"

/-- The `Logger` behind the pointer a constructor returns, in the state it
leaves. -/
def returned (r : Nat × State) : Option Logger := r.2.deref r.1

/-- The name `NewLogger` gives, by the shape of its arguments. -/
def loggerName (F : Fmt) : List Value → String
  | [Value.str s] => s
  | Value.str t :: a :: rest => F.Sprintf t (a :: rest)
  | _ => ""

/-! ## Sample inputs -/

/-- A call stack as `writeRuntimeMsg` sees it when /app/main.go calls a
method of a logger, the source of the package being /src/logger/logger.go. -/
def sampleEnv : Env where
  Caller := fun i =>
    if i = 0 then some ⟨"/src/logger/logger.go", 124⟩
    else if i = 1 then some ⟨"/src/logger/logger.go", 164⟩
    else if i = 2 then some ⟨"/app/main.go", 42⟩
    else if i = 3 then some ⟨"/usr/local/go/src/runtime/proc.go", 271⟩
    else none
  now := "2024-01-02 03:04:05"

/-- A call stack in which the method is reached through a wrapper of the
package, called from a test file of the package. -/
def testEnv : Env where
  Caller := fun i =>
    if i = 0 then some ⟨"/src/logger/logger.go", 124⟩
    else if i = 1 then some ⟨"/src/logger/logger.go", 194⟩
    else if i = 2 then some ⟨"/src/logger/logger.go", 156⟩
    else if i = 3 then some ⟨"/src/logger/logger_test.go", 17⟩
    else if i = 4 then some ⟨"/usr/local/go/src/testing/testing.go", 1595⟩
    else none
  now := "2024-01-02 03:04:05"

/-- A call stack on which every frame is a file under /src/. -/
def innerEnv : Env where
  Caller := fun i =>
    if i < 6 then some ⟨"/src/logger/logger.go", 100 + i⟩ else none
  now := "2024-01-02 03:04:05"

/-- The package state after initialisation when the source of the package is
/src/logger/logger.go: `init` removes the match of its pattern, the last 16
characters, from that path. -/
def sampleState : State := initial goFmt "/src/"

/-! ## The model of package `strings` -/

/-- The model of `strings.HasPrefix` is the prefix relation. -/
theorem HasPrefix_iff (s pre : String) : HasPrefix s pre = true ↔ ∃ t : String, s = pre ++ t := by
  unfold HasPrefix
  rw [List.isPrefixOf_iff_prefix]
  constructor
  · rintro ⟨t, ht⟩
    exact ⟨⟨t⟩, String.ext (by simp [ht])⟩
  · rintro ⟨t, rfl⟩
    exact ⟨t.data, by simp⟩

/-- The model of `strings.HasSuffix` is the suffix relation. -/
theorem HasSuffix_iff (s suffix : String) :
    HasSuffix s suffix = true ↔ ∃ t : String, s = t ++ suffix := by
  unfold HasSuffix
  rw [List.isSuffixOf_iff_suffix]
  constructor
  · rintro ⟨t, ht⟩
    exact ⟨⟨t⟩, String.ext (by simp [ht])⟩
  · rintro ⟨t, rfl⟩
    exact ⟨t.data, by simp⟩

/-- The model of `strings.Contains` is the substring relation. -/
theorem Contains_iff (s sub : String) :
    Contains s sub = true ↔ ∃ a b : String, s = a ++ sub ++ b := by
  unfold Contains
  have key : ∀ cs : List Char, containsChars sub.data cs = true ↔ sub.data <:+: cs := by
    intro cs
    induction cs with
    | nil => simp [containsChars, List.isEmpty_iff]
    | cons c cs ih =>
      simp only [containsChars, Bool.or_eq_true, ih, List.isPrefixOf_iff_prefix,
        List.infix_cons_iff]
  rw [key]
  constructor
  · rintro ⟨a, b, h⟩
    exact ⟨⟨a⟩, ⟨b⟩, String.ext (by simp [← h])⟩
  · rintro ⟨a, b, rfl⟩
    exact ⟨a.data, b.data, by simp⟩

/-! ## Lemmas on the model of `fmt` -/

/-- Under verb v every operand is printed in its default format. -/
theorem printArg_v (a : Value) : printArg a 'v' = fmtV a := by
  cases a <;> simp [printArg, fmtV, typeString]

theorem doPrintf_text (c : Char) (rest : List Char) (a : List Value) (h : c ≠ '%') :
    doPrintf (c :: rest) a = String.singleton c ++ doPrintf rest a := by
  rw [doPrintf.eq_def]; simp [h]

theorem doPrintf_verb (verb : Char) (rest : List Char) (arg : Value) (a : List Value)
    (h : verb ≠ '%') :
    doPrintf ('%' :: verb :: rest) (arg :: a) = printArg arg verb ++ doPrintf rest a := by
  rw [doPrintf.eq_def]; simp [h]

/-- The name line, as the model of fmt prints it. -/
theorem sprintf_name (name : String) :
    goFmt.Sprintf "Logger: %s >>>>>\n" [Value.str name] = "Logger: " ++ name ++ " >>>>>\n" := by
  simp [goFmt, goSprintf, doPrintf, printArg, fmtV, extraArgs]
  rfl

/-- The location text, as the model of fmt prints it. -/
theorem sprintf_location (file : String) (line : Int) :
    goFmt.Sprintf "\x1b[%d;1m%s:%d\x1b[0m" [Value.int ColorBlack, Value.str file, Value.int line]
      = "\x1b[30;1m" ++ file ++ ":" ++ toString line ++ "\x1b[0m" := by
  simp [goFmt, goSprintf, doPrintf, printArg, fmtV, extraArgs, ColorBlack]
  apply String.ext
  simp [String.singleton]
  rfl

/-- The message line of Info, as the model of fmt prints it. -/
theorem writeMsg_info (env : Env) (msg : String) :
    writeMsg goFmt env lInfo msg = env.now ++ " \x1b[34;1m[日志]\x1b[0m " ++ msg := by
  simp [writeMsg, goFmt, goSprintf, doPrintf, printArg, fmtV, extraArgs, ColorBlue]
  apply String.ext
  simp [String.singleton]
  rfl

/-- The message line of Warn, as the model of fmt prints it. -/
theorem writeMsg_warn (env : Env) (msg : String) :
    writeMsg goFmt env lWarn msg = env.now ++ " \x1b[33;1m[警告]\x1b[0m " ++ msg := by
  simp [writeMsg, goFmt, goSprintf, doPrintf, printArg, fmtV, extraArgs, ColorYellow, lWarn,
    lInfo, lDebug]
  apply String.ext
  simp [String.singleton]
  rfl

/-- The message line of Error, as the model of fmt prints it. -/
theorem writeMsg_err (env : Env) (msg : String) :
    writeMsg goFmt env lErr msg = env.now ++ " \x1b[31;1m[错误]\x1b[0m " ++ msg := by
  simp [writeMsg, goFmt, goSprintf, doPrintf, printArg, fmtV, extraArgs, ColorRed, lWarn,
    lInfo, lDebug, lErr]
  apply String.ext
  simp [String.singleton]
  rfl

theorem containsChars_percent (cs : List Char) :
    containsChars ['%'] cs = false ↔ '%' ∉ cs := by
  induction cs with
  | nil => simp [containsChars]
  | cons c cs ih =>
    by_cases hc : c = '%'
    · simp [containsChars, List.isPrefixOf, hc]
    · have hc2 : ¬ '%' = c := fun e => hc e.symm
      simp [containsChars, List.isPrefixOf, hc, hc2, ih]

/-- The test of Format fails exactly on the strings without a percent sign. -/
theorem contains_percent (s : String) : Contains s "%" = false ↔ '%' ∉ s.data := by
  show containsChars ['%'] s.data = false ↔ _
  exact containsChars_percent s.data

/-- Text without a percent sign is copied. -/
theorem doPrintf_plain (cs rest : List Char) (a : List Value) (h : '%' ∉ cs) :
    doPrintf (cs ++ rest) a = String.mk cs ++ doPrintf rest a := by
  induction cs with
  | nil => 
    apply String.ext; simp
  | cons c cs ih =>
    have hc : c ≠ '%' := fun e => h (by simp [e])
    have hcs : '%' ∉ cs := fun e => h (by simp [e])
    rw [List.cons_append, doPrintf_text _ _ _ hc, ih hcs]
    apply String.ext; simp [String.singleton]

theorem repeat_v_data (n : Nat) :
    (Repeat " %v" (n + 1)).data = ' ' :: '%' :: 'v' :: (Repeat " %v" n).data := by
  simp [Repeat]

/-- The padding prints each operand after one space. -/
theorem doPrintf_pad (F : Fmt) (a : List Value) (hF : F.Sprint = goFmt.Sprint) :
    doPrintf (Repeat " %v" a.length).data a = spaced F a := by
  induction a with
  | nil => rfl
  | cons x xs ih =>
    rw [List.length_cons, repeat_v_data, doPrintf_text _ _ _ (by decide),
      doPrintf_verb _ _ _ _ (by decide), ih, spaced, hF]
    apply String.ext
    simp [goFmt, String.singleton]

theorem extraArgs_cons (x : Value) (xs : List Value) :
    extraArgs (x :: xs) = "%!(EXTRA " ++ ", ".intercalate ((x :: xs).map extraArg) ++ ")" := by
  simp [extraArgs]

/-- A format without a percent sign is followed by the report of its operands. -/
theorem sprintf_plain (s : String) (a : List Value) (h : Contains s "%" = false) :
    goFmt.Sprintf s a = s ++ extraArgs a := by
  have h1 := doPrintf_plain s.data [] a ((contains_percent s).1 h)
  rw [List.append_nil] at h1
  show doPrintf s.data a = _
  rw [h1]
  rfl

/-- A padded format without a percent sign prints the format, then the operands. -/
theorem sprintf_padded (s : String) (a : List Value) (h : Contains s "%" = false) :
    goFmt.Sprintf (s ++ Repeat " %v" a.length) a = s ++ spaced goFmt a := by
  show doPrintf (s ++ Repeat " %v" a.length).data a = _
  rw [String.data_append, doPrintf_plain _ _ _ ((contains_percent s).1 h), doPrintf_pad goFmt a rfl]

/-! ## The blocks written by Info, Warn and Error -/

/-- What Info writes, by mode. -/
theorem info_stdout (F : Fmt) (env : Env) (l : Logger) (f : Value) (v : List Value) (w : State)
    (mode : Nat) :
    (l.Info F env f v (SetMode mode w)).stdout =
      if mode > Silent then
        w.stdout ++ [(if mode > Normal then l.writeRuntimeMsg F env ++ "\n" else "")
          ++ blockBody F env l lInfo f v]
      else w.stdout := by
  unfold Logger.Info SetMode blockBody
  by_cases h1 : mode > Silent <;> by_cases h2 : mode > Normal <;> by_cases h3 : l.name = "" <;>
    simp [h1, h2, h3, String.append_assoc]

/-- What Warn writes, by mode. -/
theorem warn_stdout (F : Fmt) (env : Env) (l : Logger) (f : Value) (v : List Value) (w : State)
    (mode : Nat) :
    (l.Warn F env f v (SetMode mode w)).stdout =
      if mode > Normal then
        w.stdout ++ [(if mode > Warning then l.writeRuntimeMsg F env ++ "\n" else "")
          ++ blockBody F env l lWarn f v]
      else w.stdout := by
  unfold Logger.Warn SetMode blockBody
  by_cases h1 : mode > Normal <;> by_cases h2 : mode > Warning <;> by_cases h3 : l.name = "" <;>
    simp [h1, h2, h3, String.append_assoc]

/-- What Error writes. -/
theorem error_stdout (F : Fmt) (env : Env) (l : Logger) (f : Value) (v : List Value) (w : State)
    (mode : Nat) :
    (l.Error F env f v (SetMode mode w)).stdout =
      w.stdout ++ [l.writeRuntimeMsg F env ++ "\n" ++ blockBody F env l lErr f v] := by
  unfold Logger.Error SetMode blockBody
  by_cases h3 : l.name = "" <;> simp [h3, String.append_assoc]

/-- C1: whatever mode SetMode stored, Error makes exactly one write, of
its message block (the location text, a newline, the name line of a named
logger, the message line of Format(f, v...) and the closing line); Warn makes
exactly one write, of its message block, when the mode is above Normal and
writes nothing otherwise; Info makes exactly one write, of its message block,
when the mode is above Silent and writes nothing otherwise.  At Silent, Info
and Warn write nothing and Error writes its block. -/
theorem emission_by_mode (F : Fmt) (env : Env) (l : Logger) (f : Value) (v : List Value)
    (w : State) (mode : Nat) :
    (l.Error F env f v (SetMode mode w)).stdout =
      w.stdout ++ [l.writeRuntimeMsg F env ++ "\n" ++ blockBody F env l lErr f v] ∧
    (l.Warn F env f v (SetMode mode w)).stdout =
      (if mode > Normal then
        w.stdout ++ [(if mode > Warning then l.writeRuntimeMsg F env ++ "\n" else "")
          ++ blockBody F env l lWarn f v]
      else w.stdout) ∧
    (l.Info F env f v (SetMode mode w)).stdout =
      (if mode > Silent then
        w.stdout ++ [(if mode > Normal then l.writeRuntimeMsg F env ++ "\n" else "")
          ++ blockBody F env l lInfo f v]
      else w.stdout) ∧
    (l.Error F env f v (SetMode mode w)).stdout.length = w.stdout.length + 1 ∧
    (l.Warn F env f v (SetMode mode w)).stdout.length =
      w.stdout.length + (if mode > Normal then 1 else 0) ∧
    (l.Info F env f v (SetMode mode w)).stdout.length =
      w.stdout.length + (if mode > Silent then 1 else 0) ∧
    (l.Info F env f v (SetMode Silent w)).stdout = w.stdout ∧
    (l.Warn F env f v (SetMode Silent w)).stdout = w.stdout ∧
    (l.Error F env f v (SetMode Silent w)).stdout =
      w.stdout ++ [l.writeRuntimeMsg F env ++ "\n" ++ blockBody F env l lErr f v] := by
  refine ⟨error_stdout .., warn_stdout .., info_stdout .., ?_, ?_, ?_, ?_, ?_, error_stdout ..⟩
  · rw [error_stdout]; simp
  · rw [warn_stdout]; by_cases h : mode > Normal <;> simp [h]
  · rw [info_stdout]; by_cases h : mode > Silent <;> simp [h]
  · rw [info_stdout]; simp
  · rw [warn_stdout]; simp [Silent, Normal]

/-- C2: the block of Info is the location text and a newline followed by the
rest of the block exactly when the mode is above Normal, the block of Warn
exactly when the mode is above Warning, the block of Error always; Info at mode
Normal and Warn at mode Warning write the rest of the block alone, and what
they do is the same whatever the call stack is. -/
theorem location_by_mode (F : Fmt) (env : Env) (l : Logger) (f : Value) (v : List Value)
    (w : State) (mode : Nat) :
    (l.Info F env f v (SetMode mode w)).stdout =
      (if mode > Silent then
        w.stdout ++ [(if mode > Normal then l.writeRuntimeMsg F env ++ "\n" else "")
          ++ blockBody F env l lInfo f v]
      else w.stdout) ∧
    (l.Warn F env f v (SetMode mode w)).stdout =
      (if mode > Normal then
        w.stdout ++ [(if mode > Warning then l.writeRuntimeMsg F env ++ "\n" else "")
          ++ blockBody F env l lWarn f v]
      else w.stdout) ∧
    (l.Error F env f v (SetMode mode w)).stdout =
      w.stdout ++ [l.writeRuntimeMsg F env ++ "\n" ++ blockBody F env l lErr f v] ∧
    (l.Info F env f v (SetMode Normal w)).stdout = w.stdout ++ [blockBody F env l lInfo f v] ∧
    (l.Warn F env f v (SetMode Warning w)).stdout = w.stdout ++ [blockBody F env l lWarn f v] ∧
    (∀ caller : Nat → Option Frame,
      l.Info F { Caller := caller, now := env.now } f v (SetMode Normal w)
        = l.Info F env f v (SetMode Normal w)) ∧
    (∀ caller : Nat → Option Frame,
      l.Warn F { Caller := caller, now := env.now } f v (SetMode Warning w)
        = l.Warn F env f v (SetMode Warning w)) := by
  refine ⟨info_stdout .., warn_stdout .., error_stdout .., ?_, ?_, ?_, ?_⟩
  · rw [info_stdout]; simp [Silent, Normal]
  · rw [warn_stdout]; simp [Warning, Normal]
  · intro caller; simp [Logger.Info, SetMode, Silent, Normal, writeMsg]
  · intro caller; simp [Logger.Warn, SetMode, Warning, Normal, writeMsg]

/-! ## The walk over the call stack -/

/-- The loop returns at a depth below 15 that qualifies. -/
theorem walk_hit (F : Fmt) (env : Env) (l : Logger) (d : Nat) (fr : Frame) (hd : d < 15)
    (hfr : env.Caller d = some fr) (hq : qualifies env l d = true) :
    writeRuntimeMsgFrom F env l d =
      F.Sprintf "\x1b[%d;1m%s:%d\x1b[0m"
        [Value.int ColorBlack, Value.str fr.file, Value.int fr.line] := by
  rw [writeRuntimeMsgFrom, if_pos hd, hfr]
  simp only [qualifies, hfr] at hq
  simp [hq]

/-- The loop goes on from a depth that does not qualify. -/
theorem walk_skip (F : Fmt) (env : Env) (l : Logger) (d : Nat) (hd : d < 15)
    (hq : qualifies env l d = false) :
    writeRuntimeMsgFrom F env l d = writeRuntimeMsgFrom F env l (d + 1) := by
  rw [writeRuntimeMsgFrom, if_pos hd]
  cases hfr : env.Caller d with
  | none => rfl
  | some fr =>
    simp only [qualifies, hfr] at hq
    simp [hq]

/-- The loop ends at depth 15. -/
theorem walk_end (F : Fmt) (env : Env) (l : Logger) (d : Nat) (hd : 15 ≤ d) :
    writeRuntimeMsgFrom F env l d = "" := by
  rw [writeRuntimeMsgFrom, if_neg (by omega)]

/-- The loop passes over a run of depths that do not qualify. -/
theorem walk_skips (F : Fmt) (env : Env) (l : Logger) (n i : Nat) (hi : i + n ≤ 15)
    (hq : ∀ j, i ≤ j → j < i + n → qualifies env l j = false) :
    writeRuntimeMsgFrom F env l i = writeRuntimeMsgFrom F env l (i + n) := by
  induction n generalizing i with
  | zero => rfl
  | succ n ih =>
    rw [walk_skip F env l i (by omega) (hq i (le_refl _) (by omega)),
      ih (i + 1) (by omega) (fun j h1 h2 => hq j (by omega) (by omega))]
    congr 1; omega

/-- The loop reads the frames below depth 15 only. -/
theorem walk_congr (F : Fmt) (env env2 : Env) (l : Logger) (n i : Nat) (hi : i + n = 15)
    (h : ∀ j, i ≤ j → j ≤ 14 → env2.Caller j = env.Caller j) :
    writeRuntimeMsgFrom F env2 l i = writeRuntimeMsgFrom F env l i := by
  induction n generalizing i with
  | zero => rw [walk_end _ _ _ _ (by omega), walk_end _ _ _ _ (by omega)]
  | succ n ih =>
    have hc := h i (le_refl _) (by omega)
    have hrec := ih (i + 1) (by omega) (fun j h1 h2 => h j (by omega) h2)
    rw [writeRuntimeMsgFrom, writeRuntimeMsgFrom.eq_def F env l i, hc, hrec]

theorem located_ne (fr : Frame) : located fr ≠ "" := by
  intro h
  have := congrArg String.length h
  simp [located] at this
  exact absurd this.1.1.2 (by decide)

/-- The walk returns the text of the first depth that qualifies. -/
theorem walk_first (env : Env) (l : Logger) (d : Nat) (fr : Frame) (h2 : 2 ≤ d) (h14 : d ≤ 14)
    (hfr : env.Caller d = some fr) (hq : qualifies env l d = true)
    (hbefore : ∀ j, 2 ≤ j → j < d → qualifies env l j = false) :
    l.writeRuntimeMsg goFmt env = located fr := by
  unfold Logger.writeRuntimeMsg
  rw [walk_skips goFmt env l (d - 2) 2 (by omega) (fun j h1 h3 => hbefore j h1 (by omega))]
  have : 2 + (d - 2) = d := by omega
  rw [this, walk_hit goFmt env l d fr (by omega) hfr hq, sprintf_location]
  rfl

/-- The walk returns the empty string when no depth qualifies. -/
theorem walk_none (F : Fmt) (env : Env) (l : Logger)
    (h : ∀ j, 2 ≤ j → j ≤ 14 → qualifies env l j = false) :
    l.writeRuntimeMsg F env = "" := by
  unfold Logger.writeRuntimeMsg
  rw [walk_skips F env l 13 2 (by omega) (fun j h1 h3 => h j h1 (by omega))]
  exact walk_end _ _ _ _ (by omega)

/-- C9: the walk of a logger returns the text of the frame at the first
depth from 2 to 14 whose frame exists and whose file does not start with the
logger's sourceDir or ends with "_test.go"; depths that hold no frame, or a
frame that does not qualify, are passed over; it returns the empty string
exactly when no depth from 2 to 14 qualifies; and two call stacks that agree
on the depths 2 to 14 give the same result. -/
theorem caller_location_walk (env : Env) (l : Logger) :
    (∀ d fr, 2 ≤ d → d ≤ 14 → env.Caller d = some fr →
      (HasPrefix fr.file l.sourceDir = false ∨ HasSuffix fr.file "_test.go" = true) →
      (∀ j, 2 ≤ j → j < d → qualifies env l j = false) →
      l.writeRuntimeMsg goFmt env
        = "\x1b[30;1m" ++ fr.file ++ ":" ++ toString fr.line ++ "\x1b[0m") ∧
    (l.writeRuntimeMsg goFmt env = "" ↔ ∀ j, 2 ≤ j → j ≤ 14 → qualifies env l j = false) ∧
    (∀ env2 : Env, (∀ j, 2 ≤ j → j ≤ 14 → env2.Caller j = env.Caller j) →
      l.writeRuntimeMsg goFmt env2 = l.writeRuntimeMsg goFmt env) := by
  refine ⟨?_, ⟨?_, walk_none goFmt env l⟩, ?_⟩
  · intro d fr h2 h14 hfr hext hbefore
    have hq : qualifies env l d = true := by
      simp only [qualifies, hfr]
      rcases hext with h | h <;> simp [h]
    exact walk_first env l d fr h2 h14 hfr hq hbefore
  · intro hempty
    by_contra hex
    push_neg at hex
    have hex2 : ∃ j, 2 ≤ j ∧ j ≤ 14 ∧ qualifies env l j = true := by
      obtain ⟨j, h1, h2, h3⟩ := hex
      exact ⟨j, h1, h2, by simpa using h3⟩
    classical
    have hspec := Nat.find_spec hex2
    have hmin := fun j => @Nat.find_min _ _ hex2 j
    obtain ⟨fr, hfr⟩ : ∃ fr, env.Caller (Nat.find hex2) = some fr := by
      have := hspec.2.2
      unfold qualifies at this
      cases hc : env.Caller (Nat.find hex2) with
      | none => simp [hc] at this
      | some fr => exact ⟨fr, rfl⟩
    have := walk_first env l (Nat.find hex2) fr hspec.1 hspec.2.1 hfr hspec.2.2
      (fun j h1 h2 => by
        have := hmin j h2
        simp only [not_and] at this
        simpa using this h1 (le_trans (le_of_lt h2) hspec.2.1))
    exact located_ne fr (this.symm.trans hempty)
  · intro env2 h
    exact walk_congr goFmt env env2 l 13 2 rfl h

theorem sampleEnv_walk (name : String) :
    Logger.writeRuntimeMsg goFmt sampleEnv ⟨name, "/src/"⟩
      = "\x1b[30;1m/app/main.go:42\x1b[0m" := by
  rw [walk_first sampleEnv ⟨name, "/src/"⟩ 2 ⟨"/app/main.go", 42⟩ (by decide) (by decide) rfl rfl
    (fun j h1 h2 => by omega)]
  decide

theorem innerEnv_walk (name : String) :
    Logger.writeRuntimeMsg goFmt innerEnv ⟨name, "/src/"⟩ = "" := by
  apply walk_none
  intro j h1 h2
  interval_cases j <;> rfl

/-- C3: with the model of fmt, the block Info, Warn or Error writes is, in
this order: the location part when the mode requires it for the severity, the
line "Logger: name >>>>>" when the name is not empty, the line made of the
timestamp, a space, the colored tag of the severity, a space and
Format(f, v...), then a newline and the closing line "<<<<<" with its newline.
At mode Debug a logger named "svc" calling Info("count=%d", 3) writes the
location line, "Logger: svc >>>>>", the message line with the Info tag and
"count=3", and "<<<<<". -/
theorem block_text (env : Env) (l : Logger) (f : Value) (v : List Value) (w : State)
    (mode : Nat) :
    (l.Info goFmt env f v (SetMode mode w)).stdout =
      (if mode > Silent then
        w.stdout ++ [(if mode > Normal then l.writeRuntimeMsg goFmt env ++ "\n" else "")
          ++ (if l.name ≠ "" then "Logger: " ++ l.name ++ " >>>>>" ++ "\n" else "")
          ++ (env.now ++ " " ++ "\x1b[34;1m[日志]\x1b[0m" ++ " " ++ Format goFmt f v)
          ++ "\n" ++ "<<<<<" ++ "\n"]
      else w.stdout) ∧
    (l.Warn goFmt env f v (SetMode mode w)).stdout =
      (if mode > Normal then
        w.stdout ++ [(if mode > Warning then l.writeRuntimeMsg goFmt env ++ "\n" else "")
          ++ (if l.name ≠ "" then "Logger: " ++ l.name ++ " >>>>>" ++ "\n" else "")
          ++ (env.now ++ " " ++ "\x1b[33;1m[警告]\x1b[0m" ++ " " ++ Format goFmt f v)
          ++ "\n" ++ "<<<<<" ++ "\n"]
      else w.stdout) ∧
    (l.Error goFmt env f v (SetMode mode w)).stdout =
      w.stdout ++ [(l.writeRuntimeMsg goFmt env ++ "\n")
        ++ (if l.name ≠ "" then "Logger: " ++ l.name ++ " >>>>>" ++ "\n" else "")
        ++ (env.now ++ " " ++ "\x1b[31;1m[错误]\x1b[0m" ++ " " ++ Format goFmt f v)
        ++ "\n" ++ "<<<<<" ++ "\n"] ∧
    (Logger.Info goFmt sampleEnv ⟨"svc", "/src/"⟩ (Value.str "count=%d") [Value.int 3]
        (SetMode Debug sampleState)).stdout =
      ["\x1b[30;1m/app/main.go:42\x1b[0m\n" ++ "Logger: svc >>>>>\n"
        ++ "2024-01-02 03:04:05 \x1b[34;1m[日志]\x1b[0m count=3\n" ++ "<<<<<\n"] := by
  have e1 : ∀ a b c d : String, a ++ b ++ c ++ d = a ++ (b ++ (c ++ d)) := by
    intro a b c d; simp [String.append_assoc]
  refine ⟨?_, ?_, ?_, ?_⟩
  · rw [info_stdout, blockBody, writeMsg_info, sprintf_name]
    by_cases h1 : mode > Silent <;> by_cases h2 : mode > Normal <;> by_cases h3 : l.name = "" <;>
      simp [h1, h2, h3, String.append_assoc]
  · rw [warn_stdout, blockBody, writeMsg_warn, sprintf_name]
    by_cases h1 : mode > Normal <;> by_cases h2 : mode > Warning <;> by_cases h3 : l.name = "" <;>
      simp [h1, h2, h3, String.append_assoc]
  · rw [error_stdout, blockBody, writeMsg_err, sprintf_name]
    by_cases h3 : l.name = "" <;> simp [h3, String.append_assoc]
  · rw [info_stdout, blockBody, writeMsg_info, sprintf_name, sampleEnv_walk]
    decide

/-- C10, as the code has it: when the walk returns the empty string, the
newline that follows the location is still written, so that the block of Error
at every mode, of Info at a mode above Normal and of Warn at a mode above
Warning is one newline followed by the block written when no location is
required. -/
theorem empty_location_block (F : Fmt) (env : Env) (l : Logger) (f : Value) (v : List Value)
    (w : State) (mode : Nat) (h : l.writeRuntimeMsg F env = "") :
    (l.Error F env f v (SetMode mode w)).stdout
      = w.stdout ++ ["\n" ++ blockBody F env l lErr f v] ∧
    (l.Info F env f v (SetMode mode w)).stdout =
      (if mode > Normal then w.stdout ++ ["\n" ++ blockBody F env l lInfo f v]
      else if mode > Silent then w.stdout ++ [blockBody F env l lInfo f v]
      else w.stdout) ∧
    (l.Warn F env f v (SetMode mode w)).stdout =
      (if mode > Warning then w.stdout ++ ["\n" ++ blockBody F env l lWarn f v]
      else if mode > Normal then w.stdout ++ [blockBody F env l lWarn f v]
      else w.stdout) := by
  refine ⟨?_, ?_, ?_⟩
  · rw [error_stdout, h]; simp
  · rw [info_stdout, h]
    by_cases h2 : mode > Normal
    · have h1 : mode > Silent := by unfold Silent; unfold Normal at h2; omega
      simp [h1, h2]
    · simp [h2]
  · rw [warn_stdout, h]
    by_cases h2 : mode > Warning
    · have h1 : mode > Normal := by unfold Normal; unfold Warning at h2; omega
      simp [h1, h2]
    · simp [h2]

/-- Witness of C10 as amended: a stack of frames of the package only. -/
theorem empty_location_block_witness :
    Logger.writeRuntimeMsg goFmt innerEnv ⟨"svc", "/src/"⟩ = "" ∧
    (Logger.Error goFmt innerEnv ⟨"svc", "/src/"⟩ (Value.str "x") []
        (SetMode Silent sampleState)).stdout
      = sampleState.stdout ++ ["\n" ++ blockBody goFmt innerEnv ⟨"svc", "/src/"⟩ lErr
          (Value.str "x") []] :=
  ⟨innerEnv_walk "svc",
    (empty_location_block goFmt innerEnv ⟨"svc", "/src/"⟩ (Value.str "x") []
      sampleState Silent (innerEnv_walk "svc")).1⟩

/-- C10 as stated fails: on a stack without a qualifying frame, Info at
mode Debug writes a block that begins with an empty line and differs from
the block it writes at mode Normal, where no location is required. -/
theorem empty_location_counterexample :
    Logger.writeRuntimeMsg goFmt innerEnv ⟨"", "/src/"⟩ = "" ∧
    (Logger.Info goFmt innerEnv ⟨"", "/src/"⟩ (Value.str "x") []
        (SetMode Debug sampleState)).stdout
      = ["\n2024-01-02 03:04:05 \x1b[34;1m[日志]\x1b[0m x\n<<<<<\n"] ∧
    (Logger.Info goFmt innerEnv ⟨"", "/src/"⟩ (Value.str "x") []
        (SetMode Normal sampleState)).stdout
      = ["2024-01-02 03:04:05 \x1b[34;1m[日志]\x1b[0m x\n<<<<<\n"] ∧
    (Logger.Info goFmt innerEnv ⟨"", "/src/"⟩ (Value.str "x") []
        (SetMode Debug sampleState)).stdout
      ≠ (Logger.Info goFmt innerEnv ⟨"", "/src/"⟩ (Value.str "x") []
        (SetMode Normal sampleState)).stdout := by
  have hD : (Logger.Info goFmt innerEnv ⟨"", "/src/"⟩ (Value.str "x") []
        (SetMode Debug sampleState)).stdout
      = ["\n2024-01-02 03:04:05 \x1b[34;1m[日志]\x1b[0m x\n<<<<<\n"] := by
    rw [info_stdout, blockBody, writeMsg_info, innerEnv_walk]
    decide
  have hN : (Logger.Info goFmt innerEnv ⟨"", "/src/"⟩ (Value.str "x") []
        (SetMode Normal sampleState)).stdout
      = ["2024-01-02 03:04:05 \x1b[34;1m[日志]\x1b[0m x\n<<<<<\n"] := by
    rw [info_stdout, blockBody, writeMsg_info]
    decide
  refine ⟨innerEnv_walk "", hD, hN, ?_⟩
  rw [hD, hN]
  decide

/-! ## Format -/

/-- C4: for a string template s, Format returns s itself when there are
no values; with values and no percent sign in s it returns the substitution
of s followed by one " %v" for each value, which with the model of fmt is s
followed by each value in its default format, each preceded by one space;
with values and a percent sign in s it returns the substitution of s alone.
Format("x") is "x", Format("x", 1, 2) is "x 1 2", Format("val=%d", 5) is
"val=5". -/
theorem format_string (F : Fmt) (s : String) (v : List Value) :
    Format F (Value.str s) v =
      (if v = [] then s
      else if Contains s "%" = true then F.Sprintf s v
      else F.Sprintf (s ++ Repeat " %v" v.length) v) ∧
    Format goFmt (Value.str s) v =
      (if v = [] then s
      else if Contains s "%" = true then goFmt.Sprintf s v
      else s ++ spaced goFmt v) ∧
    Format goFmt (Value.str "x") [] = "x" ∧
    Format goFmt (Value.str "100%") [] = "100%" ∧
    Format goFmt (Value.str "x") [Value.int 1, Value.int 2] = "x 1 2" ∧
    Format goFmt (Value.str "val=%d") [Value.int 5] = "val=5" := by
  have key : ∀ G : Fmt, Format G (Value.str s) v =
      (if v = [] then s
      else if Contains s "%" = true then G.Sprintf s v
      else G.Sprintf (s ++ Repeat " %v" v.length) v) := by
    intro G
    cases v with
    | nil => simp [Format, asString]
    | cons x xs =>
      by_cases hc : Contains s "%" = true <;> simp [Format, asString, formatTail, hc]
  refine ⟨key F, ?_, by decide, by decide, by decide, by decide⟩
  rw [key goFmt]
  by_cases hv : v = []
  · simp [hv]
  · by_cases hc : Contains s "%" = true
    · simp [hv, hc]
    · simp only [hv, hc, if_false]
      exact sprintf_padded s v (by simpa using hc)

/-- C5, as the code has it: for a first argument f that is not a string,
Format takes the default text t of f, returns t when there are no values, and
with values always appends one " %v" for each value, whether or not t holds a
percent sign, before substituting; so Format(f, v...) is Format(t, v...) when
there are no values or t holds no percent sign. -/
theorem format_value (F : Fmt) (f : Value) (v : List Value) (hf : asString f = none) :
    Format F f v =
      (if v = [] then F.Sprint f else F.Sprintf (F.Sprint f ++ Repeat " %v" v.length) v) ∧
    (v = [] ∨ Contains (F.Sprint f) "%" = false →
      Format F f v = Format F (Value.str (F.Sprint f)) v) := by
  have key : Format F f v =
      (if v = [] then F.Sprint f else F.Sprintf (F.Sprint f ++ Repeat " %v" v.length) v) := by
    cases v with
    | nil => simp [Format, hf]
    | cons x xs => simp [Format, hf, formatTail]
  refine ⟨key, ?_⟩
  intro h
  rw [key]
  cases v with
  | nil => simp [Format, asString]
  | cons x xs =>
    rcases h with h | h
    · simp at h
    · simp [Format, asString, formatTail, h]

/-- Witness of C5 as amended: an error whose text holds no percent sign. -/
theorem format_value_witness :
    Format goFmt (Value.error "disk full") [Value.int 5] = "disk full 5" ∧
    Format goFmt (Value.error "disk full") [Value.int 5]
      = Format goFmt (Value.str (goFmt.Sprint (Value.error "disk full"))) [Value.int 5] :=
  ⟨((format_value goFmt (Value.error "disk full") [Value.int 5] rfl).1).trans (by decide),
    (format_value goFmt (Value.error "disk full") [Value.int 5] rfl).2 (Or.inr (by decide))⟩

/-- C5 as stated fails: the error of errors.New("%d") has the default text
"%d", and with the value 5 Format gives "5 %!v(MISSING)" for the error and "5"
for the string. -/
theorem format_value_counterexample :
    asString (Value.error "%d") = none ∧
    goFmt.Sprint (Value.error "%d") = "%d" ∧
    Format goFmt (Value.error "%d") [Value.int 5] = "5 %!v(MISSING)" ∧
    Format goFmt (Value.str "%d") [Value.int 5] = "5" ∧
    Format goFmt (Value.error "%d") [Value.int 5] ≠ Format goFmt (Value.str "%d") [Value.int 5] := by
  decide

/-! ## The constructors -/

theorem setName_last (w : State) (l : Logger) (name : String) :
    ({ w with heap := w.heap ++ [l] } : State).setName w.heap.length name
      = { w with heap := w.heap ++ [{ l with name := name }] } := by
  simp [State.setName]

theorem setSourceDir_last (w : State) (l : Logger) (dir : String) :
    ({ w with heap := w.heap ++ [l] } : State).setSourceDir w.heap.length dir
      = { w with heap := w.heap ++ [{ l with sourceDir := dir }] } := by
  simp [State.setSourceDir]

/-- NewLogger allocates one logger, named by the shape of the arguments. -/
theorem NewLogger_eq (F : Fmt) (args : List Value) (w : State) :
    NewLogger F args w
      = (w.heap.length,
          { w with heap := w.heap ++ [{ name := loggerName F args, sourceDir := w.sourceDir }] }) := by
  match args with
  | [] => simp [NewLogger, newLogger, loggerName]
  | [x] =>
    cases x <;> simp [NewLogger, newLogger, loggerName, asString, setName_last]
  | x :: y :: rest =>
    cases x <;> simp [NewLogger, newLogger, loggerName, asString, setName_last]

/-- The logger NewLogger returns. -/
theorem returned_NewLogger (F : Fmt) (args : List Value) (w : State) :
    returned (NewLogger F args w) = some ⟨loggerName F args, w.sourceDir⟩ := by
  simp [NewLogger_eq, returned, State.deref]

/-- C6: the logger NewLogger returns always has the package's sourceDir;
its name is empty with no arguments, is s for the one argument s when s is a
string, is the substitution of the template against the further arguments for
a string template with further arguments (NewLogger("job-%d", 7) is named
"job-7"), and is empty whenever the first argument is not a string. -/
theorem newLogger_shapes (F : Fmt) (w : State) :
    returned (NewLogger F [] w) = some ⟨"", w.sourceDir⟩ ∧
    (∀ s : String, returned (NewLogger F [Value.str s] w) = some ⟨s, w.sourceDir⟩) ∧
    (∀ (t : String) (a : Value) (rest : List Value),
      returned (NewLogger F (Value.str t :: a :: rest) w)
        = some ⟨F.Sprintf t (a :: rest), w.sourceDir⟩) ∧
    (∀ (x : Value) (rest : List Value), asString x = none →
      returned (NewLogger F (x :: rest) w) = some ⟨"", w.sourceDir⟩) ∧
    (∀ args : List Value, ∃ name, returned (NewLogger F args w) = some ⟨name, w.sourceDir⟩) ∧
    returned (NewLogger goFmt [Value.str "100%"] w) = some ⟨"100%", w.sourceDir⟩ ∧
    returned (NewLogger goFmt [Value.str "job-%d", Value.int 7] w)
      = some ⟨"job-7", w.sourceDir⟩ := by
  refine ⟨returned_NewLogger .., fun s => returned_NewLogger .., fun t a rest =>
    returned_NewLogger .., ?_, fun args => ⟨_, returned_NewLogger ..⟩, returned_NewLogger .., ?_⟩
  · intro x rest hx
    rw [returned_NewLogger]
    cases x with
    | str s => simp [asString] at hx
    | _ => cases rest <;> rfl
  · rw [returned_NewLogger]
    have : loggerName goFmt [Value.str "job-%d", Value.int 7] = "job-7" := by decide
    rw [this]

/-- Witness of C6: a first argument that is not a string. -/
theorem newLogger_shapes_witness :
    returned (NewLogger goFmt [Value.int 7, Value.str "job-%d"] sampleState)
      = some ⟨"", sampleState.sourceDir⟩ :=
  (newLogger_shapes goFmt sampleState).2.2.2.1 (Value.int 7) [Value.str "job-%d"] rfl

/-- C7, as the code has it: for a string template t and a non-empty list a
of further arguments the logger of NewLogger(t, a...) is named by the
substitution of t against a, with no " %v" appended; with the model of fmt
that is Format(t, a...) when t holds a percent sign, and otherwise t followed
by the report of the unused arguments, "%!(EXTRA type=value, ...)". -/
theorem newLogger_template (F : Fmt) (t : String) (a : List Value) (w : State) (ha : a ≠ []) :
    returned (NewLogger F (Value.str t :: a) w) = some ⟨F.Sprintf t a, w.sourceDir⟩ ∧
    returned (NewLogger goFmt (Value.str t :: a) w) =
      some ⟨if Contains t "%" = true then Format goFmt (Value.str t) a
        else t ++ "%!(EXTRA " ++ ", ".intercalate (a.map extraArg) ++ ")", w.sourceDir⟩ := by
  cases a with
  | nil => exact absurd rfl ha
  | cons x xs =>
    refine ⟨returned_NewLogger .., ?_⟩
    rw [returned_NewLogger]
    by_cases hc : Contains t "%" = true
    · simp [loggerName, Format, asString, formatTail, hc]
    · have hc2 : Contains t "%" = false := by simpa using hc
      simp only [loggerName, hc, if_false]
      rw [sprintf_plain t _ hc2, extraArgs_cons]
      simp [String.append_assoc]

/-- Witness of C7 as amended: NewLogger("worker", 1, 2). -/
theorem newLogger_template_witness :
    returned (NewLogger goFmt [Value.str "worker", Value.int 1, Value.int 2] sampleState)
      = some ⟨"worker%!(EXTRA int=1, int=2)", "/src/"⟩ :=
  ((newLogger_template goFmt "worker" [Value.int 1, Value.int 2] sampleState
    (by decide)).2).trans (by decide)

/-- C7 as stated fails: the logger of NewLogger("worker", 1, 2) is named
"worker%!(EXTRA int=1, int=2)", while Format("worker", 1, 2) is "worker 1 2". -/
theorem newLogger_template_counterexample :
    Contains "worker" "%" = false ∧
    (returned (NewLogger goFmt [Value.str "worker", Value.int 1, Value.int 2] sampleState)).map
      Logger.name = some "worker%!(EXTRA int=1, int=2)" ∧
    Format goFmt (Value.str "worker") [Value.int 1, Value.int 2] = "worker 1 2" ∧
    (returned (NewLogger goFmt [Value.str "worker", Value.int 1, Value.int 2] sampleState)).map
      Logger.name ≠ some (Format goFmt (Value.str "worker") [Value.int 1, Value.int 2]) := by
  decide

/-- C8: NewLoggerWithSourceDir panics exactly when the path is empty,
whatever the other arguments; with a non-empty path it returns a logger whose
sourceDir is the path and whose name is the one NewLogger gives for the same
arguments, and the package's sourceDir, mode, output and default logger are
what they were. -/
theorem newLoggerWithSourceDir_spec (F : Fmt) (path : String) (args : List Value) (w : State)
    (hw : w.defaultLogger < w.heap.length) :
    ((∃ e, NewLoggerWithSourceDir F path args w = Except.error e) ↔ path = "") ∧
    (path ≠ "" → ∃ r name,
      NewLoggerWithSourceDir F path args w = Except.ok r ∧
      returned (NewLogger F args w) = some ⟨name, w.sourceDir⟩ ∧
      returned r = some ⟨name, path⟩ ∧
      r.2.sourceDir = w.sourceDir ∧
      r.2.defaultLogMode = w.defaultLogMode ∧
      r.2.stdout = w.stdout ∧
      r.2.defaultLogger = w.defaultLogger ∧
      r.2.deref r.2.defaultLogger = w.deref w.defaultLogger) := by
  constructor
  · by_cases hp : path = ""
    · simp [NewLoggerWithSourceDir, hp]
    · simp [NewLoggerWithSourceDir, hp]
  · intro hp
    refine ⟨(w.heap.length, { w with heap := w.heap ++ [⟨loggerName F args, path⟩] }),
      loggerName F args, ?_, returned_NewLogger .., ?_, rfl, rfl, rfl, rfl, ?_⟩
    · simp [NewLoggerWithSourceDir, hp, NewLogger_eq, setSourceDir_last]
    · simp [returned, State.deref]
    · simp [State.deref, List.getElem?_append_left hw]

/-- Witness of C8: a custom boundary on the initialised package. -/
theorem newLoggerWithSourceDir_witness :
    ∃ r, NewLoggerWithSourceDir goFmt "/app/" [Value.str "svc"] sampleState = Except.ok r ∧
      returned r = some ⟨"svc", "/app/"⟩ ∧
      r.2.deref r.2.defaultLogger = sampleState.deref sampleState.defaultLogger := by
  obtain ⟨r, name, h1, h2, h3, _, _, _, _, h4⟩ :=
    (newLoggerWithSourceDir_spec goFmt "/app/" [Value.str "svc"] sampleState (by decide)).2
      (by decide)
  have hn : name = "svc" := by
    rw [returned_NewLogger] at h2
    simp [loggerName] at h2
    exact h2.symm
  exact ⟨r, h1, by rw [h3, hn], h4⟩

/-- Witness of C9: frames of the package are passed over and the test file
of the package is returned. -/
theorem caller_location_walk_witness :
    Logger.writeRuntimeMsg goFmt testEnv ⟨"", "/src/"⟩
      = "\x1b[30;1m/src/logger/logger_test.go:17\x1b[0m" :=
  ((caller_location_walk testEnv ⟨"", "/src/"⟩).1 3
    ⟨"/src/logger/logger_test.go", 17⟩ (by decide) (by decide) rfl (Or.inr (by decide))
    (fun j h1 h2 => by interval_cases j; rfl)).trans (by decide)

end logger
